import Mathlib

/-!
# SDL3 main-callbacks adapter of `vlang/sdl`

A shallow embedding of the C sources

* `c/sdl_main_use_callbacks_include.h`     (default callbacks and the four slots),
* `c/sdl_main_use_callbacks_postinclude.h` (the adapter that dispatches through the slots),
* `c/sdl_main_use_callbacks_shim.h`        (the adapter that calls the exported `v_sdl_app_*`),
* `c/v_gc_sdl_boehm.c`                     (`V_GC_SDL_calloc`).

C statements become transformers of an explicit machine state.  Everything the
sources call but do not define (`_vinit`, `_vcleanup`, the collector entry
points, the application's own callbacks, `SDL_EVENT_QUIT`, the width of
`size_t`, the build flag `_VGCBOEHM`) is a field of `Env`: an arbitrary, total
transformer of the whole `World`, so a callee may write any global, the slots
and `g_main_argc`/`g_main_argv` included.  Every call made and every global
stored by the embedded code is also appended to a ghost trace that no callee
can touch; ordering and counting properties are read off that trace.
-/

namespace VSdl

/-- A machine address (`void *`, `void **`, `char **`). -/
abbrev Ptr := Nat

/-- Modelled from the spec: the declaration of the enum `SDL_AppResult` lives in the
SDL3 headers; the spec gives it as the tri-state `Continue`, `Success`, `Failure`. -/
inductive SDL_AppResult where
  | SDL_APP_CONTINUE
  | SDL_APP_SUCCESS
  | SDL_APP_FAILURE
  deriving DecidableEq, Repr

open SDL_AppResult

/-- Modelled from the spec: the union `SDL_Event` is declared in the SDL3 headers; the
only field the sources read is the discriminant `type` (a `Uint32`), the rest is
an uninterpreted payload.  The host's `SDL_Event *` is passed as the record it
points to. -/
structure SDL_Event where
  type : Nat
  payload : List Nat
  deriving DecidableEq, Repr

/-- A value of type `SDL_AppResult (*)(void **, int, char *[])`: the default defined in
`sdl_main_use_callbacks_include.h`, or an application function at some address. -/
inductive InitFn where
  | nop_sdl_app_init
  | app (addr : Nat)
  deriving DecidableEq, Repr

/-- A value of type `void (*)(void *, SDL_AppResult)`. -/
inductive QuitFn where
  | nop_sdl_app_quit
  | app (addr : Nat)
  deriving DecidableEq, Repr

/-- A value of type `SDL_AppResult (*)(void *, SDL_Event *)`. -/
inductive EventFn where
  | nop_sdl_app_event
  | app (addr : Nat)
  deriving DecidableEq, Repr

/-- A value of type `SDL_AppResult (*)(void *)`. -/
inductive IterateFn where
  | nop_sdl_app_iterate
  | app (addr : Nat)
  deriving DecidableEq, Repr

/-- The mutable program state: the two globals of the V runtime written by `SDL_AppInit`,
the four slots of `sdl_main_use_callbacks_include.h`, and byte-addressed memory. -/
structure World where
  g_main_argc : Int
  g_main_argv : Ptr
  g_sdl_app_init : InitFn
  g_sdl_app_quit : QuitFn
  g_sdl_app_event : EventFn
  g_sdl_app_iterate : IterateFn
  mem : Nat → Nat

/-- One observable step of the embedded code: a store to a global or a call. -/
inductive Action where
  | store_g_main_argc (argc : Int)
  | store_g_main_argv (argv : Ptr)
  | GC_set_pages_executable (flag : Int)
  | GC_INIT
  | _vinit (argc : Int) (argv : Ptr)
  | _vcleanup
  | g_sdl_app_init (f : InitFn) (appstate : Ptr) (argc : Int) (argv : Ptr)
  | g_sdl_app_quit (f : QuitFn) (appstate : Ptr) (result : SDL_AppResult)
  | g_sdl_app_event (f : EventFn) (appstate : Ptr) (event : SDL_Event)
  | g_sdl_app_iterate (f : IterateFn) (appstate : Ptr)
  | v_sdl_app_init (appstate : Ptr) (argc : Int) (argv : Ptr)
  | v_sdl_app_quit (appstate : Ptr) (result : SDL_AppResult)
  | v_sdl_app_event (appstate : Ptr) (event : SDL_Event)
  | v_sdl_app_iterate (appstate : Ptr)
  | GC_MALLOC (bytes : Nat)
  | memset (dst : Ptr) (c : Nat) (n : Nat)
  deriving DecidableEq, Repr

/-- What the translation units are compiled and linked against. -/
structure Env where
  /-- whether `_VGCBOEHM` is defined -/
  _VGCBOEHM : Bool
  /-- the value of the SDL3 constant `SDL_EVENT_QUIT` -/
  SDL_EVENT_QUIT : Nat
  /-- the bit width of `size_t` -/
  size_t_bits : Nat
  _vinit : Int → Ptr → World → World
  _vcleanup : World → World
  GC_set_pages_executable : Int → World → World
  GC_INIT : World → World
  GC_MALLOC : Nat → World → Ptr × World
  /-- the application functions a slot can point to, by address -/
  app_init : Nat → Ptr → Int → Ptr → World → SDL_AppResult × World
  app_quit : Nat → Ptr → SDL_AppResult → World → World
  app_event : Nat → Ptr → SDL_Event → World → SDL_AppResult × World
  app_iterate : Nat → Ptr → World → SDL_AppResult × World
  /-- the functions exported by the application for the shim variant -/
  v_sdl_app_init : Ptr → Int → Ptr → World → SDL_AppResult × World
  v_sdl_app_quit : Ptr → SDL_AppResult → World → World
  v_sdl_app_event : Ptr → SDL_Event → World → SDL_AppResult × World
  v_sdl_app_iterate : Ptr → World → SDL_AppResult × World

/-- The program state together with the ghost trace of the steps taken so far. -/
structure State where
  world : World
  trace : List Action

/-- Run a statement without a value: record it, then apply its effect. -/
def State.exec (a : Action) (f : World → World) (s : State) : State :=
  { world := f s.world, trace := s.trace ++ [a] }

/-- Run a call that returns a value: record it, apply its effect, hand back the value. -/
def State.call {α : Type} (a : Action) (f : World → α × World) (s : State) : α × State :=
  ((f s.world).1, { world := (f s.world).2, trace := s.trace ++ [a] })

/-! ## `sdl_main_use_callbacks_include.h` -/

/-- `SDL_AppResult nop_sdl_app_init(void **appstate, int argc, char *argv[])`. -/
def nop_sdl_app_init (_appstate : Ptr) (_argc : Int) (_argv : Ptr) (w : World) :
    SDL_AppResult × World :=
  (SDL_APP_CONTINUE, w)

/-- `void nop_sdl_app_quit(void *appstate, SDL_AppResult result)`, empty body. -/
def nop_sdl_app_quit (_appstate : Ptr) (_result : SDL_AppResult) (w : World) : World :=
  w

/-- `SDL_AppResult nop_sdl_app_event(void *appstate, SDL_Event *event)`. -/
def nop_sdl_app_event (SDL_EVENT_QUIT : Nat) (_appstate : Ptr) (event : SDL_Event)
    (w : World) : SDL_AppResult × World :=
  if event.type = SDL_EVENT_QUIT then
    (SDL_APP_SUCCESS, w)
  else
    (SDL_APP_CONTINUE, w)

/-- `SDL_AppResult nop_sdl_app_iterate(void *appstate)`. -/
def nop_sdl_app_iterate (_appstate : Ptr) (w : World) : SDL_AppResult × World :=
  (SDL_APP_CONTINUE, w)

/-- The values the four slots are given by their initialisers (lines 20-23); the
other globals are whatever the loader left there. -/
def World.loadTime (w : World) : World :=
  { w with
    g_sdl_app_init := InitFn.nop_sdl_app_init
    g_sdl_app_quit := QuitFn.nop_sdl_app_quit
    g_sdl_app_event := EventFn.nop_sdl_app_event
    g_sdl_app_iterate := IterateFn.nop_sdl_app_iterate }

/-- Calling through a pointer of type `InitFn`. -/
def InitFn.run (env : Env) : InitFn → Ptr → Int → Ptr → World → SDL_AppResult × World
  | InitFn.nop_sdl_app_init => VSdl.nop_sdl_app_init
  | InitFn.app addr => env.app_init addr

/-- Calling through a pointer of type `QuitFn`. -/
def QuitFn.run (env : Env) : QuitFn → Ptr → SDL_AppResult → World → World
  | QuitFn.nop_sdl_app_quit => VSdl.nop_sdl_app_quit
  | QuitFn.app addr => env.app_quit addr

/-- Calling through a pointer of type `EventFn`. -/
def EventFn.run (env : Env) : EventFn → Ptr → SDL_Event → World → SDL_AppResult × World
  | EventFn.nop_sdl_app_event => VSdl.nop_sdl_app_event env.SDL_EVENT_QUIT
  | EventFn.app addr => env.app_event addr

/-- Calling through a pointer of type `IterateFn`. -/
def IterateFn.run (env : Env) : IterateFn → Ptr → World → SDL_AppResult × World
  | IterateFn.nop_sdl_app_iterate => VSdl.nop_sdl_app_iterate
  | IterateFn.app addr => env.app_iterate addr

/-! ## `sdl_main_use_callbacks_postinclude.h` -/

namespace Postinclude

/-- `SDL_AppResult SDL_AppInit(void **appstate, int argc, char *argv[])`, lines 9-18. -/
def SDL_AppInit (env : Env) (appstate : Ptr) (argc : Int) (argv : Ptr) (s : State) :
    SDL_AppResult × State :=
  let s := s.exec (Action.store_g_main_argc argc) (fun w => { w with g_main_argc := argc })
  let s := s.exec (Action.store_g_main_argv argv) (fun w => { w with g_main_argv := argv })
  let s :=
    if env._VGCBOEHM then
      let s := s.exec (Action.GC_set_pages_executable 0) (env.GC_set_pages_executable 0)
      s.exec Action.GC_INIT env.GC_INIT
    else s
  let s := s.exec (Action._vinit argc argv) (env._vinit argc argv)
  s.call (Action.g_sdl_app_init s.world.g_sdl_app_init appstate argc argv)
    (s.world.g_sdl_app_init.run env appstate argc argv)

/-- `void SDL_AppQuit(void *appstate, SDL_AppResult result)`, lines 20-23. -/
def SDL_AppQuit (env : Env) (appstate : Ptr) (result : SDL_AppResult) (s : State) : State :=
  let s := s.exec (Action.g_sdl_app_quit s.world.g_sdl_app_quit appstate result)
    (s.world.g_sdl_app_quit.run env appstate result)
  s.exec Action._vcleanup env._vcleanup

/-- `SDL_AppResult SDL_AppEvent(void *appstate, SDL_Event *event)`, lines 25-27. -/
def SDL_AppEvent (env : Env) (appstate : Ptr) (event : SDL_Event) (s : State) :
    SDL_AppResult × State :=
  s.call (Action.g_sdl_app_event s.world.g_sdl_app_event appstate event)
    (s.world.g_sdl_app_event.run env appstate event)

/-- `SDL_AppResult SDL_AppIterate(void *appstate)`, lines 29-31. -/
def SDL_AppIterate (env : Env) (appstate : Ptr) (s : State) : SDL_AppResult × State :=
  s.call (Action.g_sdl_app_iterate s.world.g_sdl_app_iterate appstate)
    (s.world.g_sdl_app_iterate.run env appstate)

end Postinclude

/-! ## `sdl_main_use_callbacks_shim.h` (compiled when `SDL_MAIN_USE_CALLBACKS` is defined) -/

namespace Shim

/-- `SDL_AppResult SDL_AppInit(void **appstate, int argc, char *argv[])`, lines 11-21. -/
def SDL_AppInit (env : Env) (appstate : Ptr) (argc : Int) (argv : Ptr) (s : State) :
    SDL_AppResult × State :=
  let s := s.exec (Action.store_g_main_argc argc) (fun w => { w with g_main_argc := argc })
  let s := s.exec (Action.store_g_main_argv argv) (fun w => { w with g_main_argv := argv })
  let s :=
    if env._VGCBOEHM then
      let s := s.exec (Action.GC_set_pages_executable 0) (env.GC_set_pages_executable 0)
      s.exec Action.GC_INIT env.GC_INIT
    else s
  let s := s.exec (Action._vinit argc argv) (env._vinit argc argv)
  s.call (Action.v_sdl_app_init appstate argc argv) (env.v_sdl_app_init appstate argc argv)

/-- `SDL_AppResult SDL_AppEvent(void *appstate, SDL_Event *event)`, lines 23-26. -/
def SDL_AppEvent (env : Env) (appstate : Ptr) (event : SDL_Event) (s : State) :
    SDL_AppResult × State :=
  s.call (Action.v_sdl_app_event appstate event) (env.v_sdl_app_event appstate event)

/-- `SDL_AppResult SDL_AppIterate(void *appstate)`, lines 28-31. -/
def SDL_AppIterate (env : Env) (appstate : Ptr) (s : State) : SDL_AppResult × State :=
  s.call (Action.v_sdl_app_iterate appstate) (env.v_sdl_app_iterate appstate)

/-- `void SDL_AppQuit(void *appstate, SDL_AppResult result)`, lines 33-37. -/
def SDL_AppQuit (env : Env) (appstate : Ptr) (result : SDL_AppResult) (s : State) : State :=
  let s := s.exec (Action.v_sdl_app_quit appstate result) (env.v_sdl_app_quit appstate result)
  s.exec Action._vcleanup env._vcleanup

end Shim

/-! ## `v_gc_sdl_boehm.c` -/

/-- The C library routine `memset(dst, c, n)`: the `n` bytes starting at `dst` become
`(unsigned char)c`, every other byte is kept, and `dst` is returned.  A store
through the null pointer faults: with `dst = 0` and `n > 0` the call never
returns (`none`).  A non-null `dst` is taken to be a block of at least `n` bytes,
which is what `GC_MALLOC(n)` hands out when it does not hand out null. -/
def memset (dst : Ptr) (c : Nat) (n : Nat) (w : World) : Option (Ptr × World) :=
  if dst = 0 ∧ 0 < n then
    none
  else
    some (dst, { w with mem := fun a => if dst ≤ a ∧ a < dst + n then c % 256 else w.mem a })

/-- `void* V_GC_SDL_calloc(size_t n, size_t size)`; `size_t` arithmetic wraps modulo
`2 ^ size_t_bits`.  With `_VGCBOEHM` defined the braced block returns, otherwise
only `return 0;` is compiled.  The result of `GC_MALLOC` goes to `memset`
unchecked; `Except.error` is the state in which the process faults there. -/
def V_GC_SDL_calloc (env : Env) (n size : Nat) (s : State) : Except State (Ptr × State) :=
  if env._VGCBOEHM then
    let msize := (n * size) % 2 ^ env.size_t_bits
    let r := s.call (Action.GC_MALLOC msize) (env.GC_MALLOC msize)
    match memset r.1 0 msize r.2.world with
    | some (q, w) => Except.ok (q, ⟨w, r.2.trace ++ [Action.memset r.1 0 msize]⟩)
    | none => Except.error ⟨r.2.world, r.2.trace ++ [Action.memset r.1 0 msize]⟩
  else
    Except.ok (0, s)

/-! ## The host side -/

/-- One call of the host (the SDL3 library) into the adapter: one of the four entry
points the sources define, with its arguments. -/
inductive HostCall where
  | Init (appstate : Ptr) (argc : Int) (argv : Ptr)
  | Event (appstate : Ptr) (event : SDL_Event)
  | Iterate (appstate : Ptr)
  | Quit (appstate : Ptr) (result : SDL_AppResult)
  deriving DecidableEq, Repr

namespace Postinclude

/-- The host makes one call; what the entry point returns goes to the host. -/
def hostStep (env : Env) (s : State) : HostCall → State
  | HostCall.Init a c v => (SDL_AppInit env a c v s).2
  | HostCall.Event a e => (SDL_AppEvent env a e s).2
  | HostCall.Iterate a => (SDL_AppIterate env a s).2
  | HostCall.Quit a r => SDL_AppQuit env a r s

/-- The host makes a sequence of calls, one after the other. -/
def hostRun (env : Env) (calls : List HostCall) (s : State) : State :=
  calls.foldl (hostStep env) s

end Postinclude

/-! ## Vocabulary of the statements -/

/-- The action is a call through one of the four slots. -/
def Action.isSlotCall : Action → Bool
  | Action.g_sdl_app_init _ _ _ _ => true
  | Action.g_sdl_app_quit _ _ _ => true
  | Action.g_sdl_app_event _ _ _ => true
  | Action.g_sdl_app_iterate _ _ => true
  | _ => false

/-- The action is a call of the runtime cleanup hook. -/
def Action.isRuntimeCleanup : Action → Bool
  | Action._vcleanup => true
  | _ => false

/-- The slot call a host call leads to when the slots are those of `w`. -/
def HostCall.dispatch (w : World) : HostCall → Action
  | HostCall.Init a c v => Action.g_sdl_app_init w.g_sdl_app_init a c v
  | HostCall.Event a e => Action.g_sdl_app_event w.g_sdl_app_event a e
  | HostCall.Iterate a => Action.g_sdl_app_iterate w.g_sdl_app_iterate a
  | HostCall.Quit a r => Action.g_sdl_app_quit w.g_sdl_app_quit a r

/-- The contents of the four slots. -/
def World.slots (w : World) : InitFn × QuitFn × EventFn × IterateFn :=
  (w.g_sdl_app_init, w.g_sdl_app_quit, w.g_sdl_app_event, w.g_sdl_app_iterate)

/-- The stored process arguments. -/
def World.ProcessArgs (w : World) : Int × Ptr :=
  (w.g_main_argc, w.g_main_argv)

/-- What runs inside `SDL_AppInit` before the init slot is read (the collector entry
points and `_vinit`) assigns no slot. -/
def Env.BootKeepsSlots (env : Env) : Prop :=
  (∀ flag w, (env.GC_set_pages_executable flag w).slots = w.slots) ∧
  (∀ w, (env.GC_INIT w).slots = w.slots) ∧
  (∀ argc argv w, (env._vinit argc argv w).slots = w.slots)

/-- No callee of the adapter assigns a slot: section 3 of the spec has the slots
mutated only before the first entry point fires. -/
def Env.KeepsSlots (env : Env) : Prop :=
  env.BootKeepsSlots ∧
  (∀ w, (env._vcleanup w).slots = w.slots) ∧
  (∀ addr a argc argv w, (env.app_init addr a argc argv w).2.slots = w.slots) ∧
  (∀ addr a r w, (env.app_quit addr a r w).slots = w.slots) ∧
  (∀ addr a e w, (env.app_event addr a e w).2.slots = w.slots) ∧
  (∀ addr a w, (env.app_iterate addr a w).2.slots = w.slots)

/-- No callee of `SDL_AppInit` writes `g_main_argc` or `g_main_argv`: section 3 of the
spec has ProcessArgs written once, by Init. -/
def Env.InitKeepsProcessArgs (env : Env) : Prop :=
  (∀ flag w, (env.GC_set_pages_executable flag w).ProcessArgs = w.ProcessArgs) ∧
  (∀ w, (env.GC_INIT w).ProcessArgs = w.ProcessArgs) ∧
  (∀ argc argv w, (env._vinit argc argv w).ProcessArgs = w.ProcessArgs) ∧
  (∀ addr a argc argv w, (env.app_init addr a argc argv w).2.ProcessArgs = w.ProcessArgs) ∧
  (∀ a argc argv w, (env.v_sdl_app_init a argc argv w).2.ProcessArgs = w.ProcessArgs)

/-- An assignment statement `g_sdl_app_init = f;`, `g_sdl_app_quit = f;`,
`g_sdl_app_event = f;` or `g_sdl_app_iterate = f;` made by the application. -/
inductive Override where
  | init (f : InitFn)
  | quit (f : QuitFn)
  | event (f : EventFn)
  | iterate (f : IterateFn)
  deriving DecidableEq, Repr

/-- The effect of the assignment statement on the program state. -/
def World.assign (w : World) : Override → World
  | Override.init f => { w with g_sdl_app_init := f }
  | Override.quit f => { w with g_sdl_app_quit := f }
  | Override.event f => { w with g_sdl_app_event := f }
  | Override.iterate f => { w with g_sdl_app_iterate := f }

/-! ## Concrete environments used to instantiate the statements -/

/-- A sample world: no arguments stored, every slot at its default, memory all `0xAA`. -/
def sampleWorld : World where
  g_main_argc := 0
  g_main_argv := 0
  g_sdl_app_init := InitFn.nop_sdl_app_init
  g_sdl_app_quit := QuitFn.nop_sdl_app_quit
  g_sdl_app_event := EventFn.nop_sdl_app_event
  g_sdl_app_iterate := IterateFn.nop_sdl_app_iterate
  mem := fun _ => 0xAA

/-- A sample environment: the collector is compiled in, `SDL_EVENT_QUIT` is `0x100`,
`size_t` has 64 bits, the hooks write one byte of memory each, the allocator hands
out address `4096`, and the application callbacks return `SDL_APP_FAILURE`. -/
def sampleEnv : Env where
  _VGCBOEHM := true
  SDL_EVENT_QUIT := 0x100
  size_t_bits := 64
  _vinit := fun _ _ w => { w with mem := fun a => if a = 1 then 1 else w.mem a }
  _vcleanup := fun w => { w with mem := fun a => if a = 1 then 0 else w.mem a }
  GC_set_pages_executable := fun _ w => w
  GC_INIT := fun w => { w with mem := fun a => if a = 2 then 1 else w.mem a }
  GC_MALLOC := fun _ w => (4096, w)
  app_init := fun _ _ _ _ w => (SDL_APP_FAILURE, w)
  app_quit := fun _ _ _ w => w
  app_event := fun _ _ _ w => (SDL_APP_FAILURE, w)
  app_iterate := fun _ _ w => (SDL_APP_FAILURE, w)
  v_sdl_app_init := fun _ _ _ w => (SDL_APP_CONTINUE, w)
  v_sdl_app_quit := fun _ _ w => w
  v_sdl_app_event := fun _ _ w => (SDL_APP_CONTINUE, w)
  v_sdl_app_iterate := fun _ w => (SDL_APP_CONTINUE, w)

/-- The sample environment with another application: its init callbacks return
`SDL_APP_CONTINUE` after the two stores `g_main_argc = 0; g_main_argv = 0;`. -/
def clobberEnv : Env :=
  { sampleEnv with
    app_init := fun _ _ _ _ w => (SDL_APP_CONTINUE, { w with g_main_argc := 0, g_main_argv := 0 }) }

/-- The sample environment with another application: its event callbacks return
`SDL_APP_FAILURE` after the store `g_sdl_app_event = nop_sdl_app_event;`. -/
def reassignEnv : Env :=
  { sampleEnv with
    app_event := fun _ _ _ w =>
      (SDL_APP_FAILURE, { w with g_sdl_app_event := EventFn.nop_sdl_app_event }) }

/-! ## Theorems -/

/-- C1: for every event, `nop_sdl_app_event` returns `SDL_APP_SUCCESS` when the event's
`type` is `SDL_EVENT_QUIT` and `SDL_APP_CONTINUE` for every other `type`; the answer
does not depend on `appstate` (nor on the program state), it is never
`SDL_APP_FAILURE`, and the call changes nothing. -/
theorem C1_nop_sdl_app_event (SDL_EVENT_QUIT : Nat) (appstate : Ptr) (event : SDL_Event)
    (w : World) :
    (nop_sdl_app_event SDL_EVENT_QUIT appstate event w).1
        = (if event.type = SDL_EVENT_QUIT then SDL_APP_SUCCESS else SDL_APP_CONTINUE) ∧
    (nop_sdl_app_event SDL_EVENT_QUIT appstate event w).1 ≠ SDL_APP_FAILURE ∧
    (∀ (appstate2 : Ptr) (w2 : World),
      (nop_sdl_app_event SDL_EVENT_QUIT appstate2 event w2).1
        = (nop_sdl_app_event SDL_EVENT_QUIT appstate event w).1) ∧
    (nop_sdl_app_event SDL_EVENT_QUIT appstate event w).2 = w := by
  unfold nop_sdl_app_event
  by_cases h : event.type = SDL_EVENT_QUIT <;> simp [h]

/-- C7: `nop_sdl_app_init` returns `SDL_APP_CONTINUE` for every `appstate`, `argc`, `argv`
and leaves the whole program state as it was, in particular every byte of memory
(so nothing is written through `appstate`); `nop_sdl_app_iterate` returns
`SDL_APP_CONTINUE` for every `appstate` and changes nothing; `nop_sdl_app_quit`
returns for every `appstate` and `result` with the program state (memory,
`g_main_argc`, `g_main_argv`, the four slots) unchanged. -/
theorem C7_nop_defaults (appstate : Ptr) (argc : Int) (argv : Ptr) (result : SDL_AppResult)
    (w : World) :
    nop_sdl_app_init appstate argc argv w = (SDL_APP_CONTINUE, w) ∧
    (∀ a, (nop_sdl_app_init appstate argc argv w).2.mem a = w.mem a) ∧
    nop_sdl_app_iterate appstate w = (SDL_APP_CONTINUE, w) ∧
    nop_sdl_app_quit appstate result w = w ∧
    (nop_sdl_app_quit appstate result w).ProcessArgs = w.ProcessArgs ∧
    (nop_sdl_app_quit appstate result w).slots = w.slots ∧
    (∀ a, (nop_sdl_app_quit appstate result w).mem a = w.mem a) :=
  ⟨rfl, fun _ => rfl, rfl, rfl, rfl, rfl, fun _ => rfl⟩

/-- C2: `SDL_AppInit` (both variants) stores `argc` and `argv` into
`g_main_argc` and `g_main_argv`, then (after the collector calls when
`_VGCBOEHM` is defined) calls `_vinit` with the host's `(argc, argv)`, then
calls the init slot (the exported `v_sdl_app_init` in the shim) with the host's
`(appstate, argc, argv)`, in this order; its result and final state are exactly
those of that last call: with the application callback at any address in the
init slot they are those of `app_init` at that address, whatever it returns, and
with the default they are `SDL_APP_CONTINUE` and the state `_vinit` returned.
The stored arguments are the host's when the first callee starts; they are
still the host's after the call provided no callee of Init (the collector
calls, `_vinit`, the init callback) writes `g_main_argc` or `g_main_argv`. -/
theorem C2_SDL_AppInit_order (env : Env) (appstate : Ptr) (argc : Int) (argv : Ptr)
    (s : State) :
    let w1 : World := { s.world with g_main_argc := argc, g_main_argv := argv }
    let w2 : World :=
      if env._VGCBOEHM then env.GC_INIT (env.GC_set_pages_executable 0 w1) else w1
    let w3 : World := env._vinit argc argv w2
    let boot : List Action :=
      if env._VGCBOEHM then [Action.GC_set_pages_executable 0, Action.GC_INIT] else []
    w1.ProcessArgs = (argc, argv) ∧
    ((Postinclude.SDL_AppInit env appstate argc argv s).2.trace
        = s.trace ++ [Action.store_g_main_argc argc, Action.store_g_main_argv argv] ++ boot
            ++ [Action._vinit argc argv,
                Action.g_sdl_app_init w3.g_sdl_app_init appstate argc argv] ∧
      (Postinclude.SDL_AppInit env appstate argc argv s).1
        = (w3.g_sdl_app_init.run env appstate argc argv w3).1 ∧
      (Postinclude.SDL_AppInit env appstate argc argv s).2.world
        = (w3.g_sdl_app_init.run env appstate argc argv w3).2 ∧
      (env.InitKeepsProcessArgs →
        (Postinclude.SDL_AppInit env appstate argc argv s).2.world.ProcessArgs
          = (argc, argv))) ∧
    ((Shim.SDL_AppInit env appstate argc argv s).2.trace
        = s.trace ++ [Action.store_g_main_argc argc, Action.store_g_main_argv argv] ++ boot
            ++ [Action._vinit argc argv, Action.v_sdl_app_init appstate argc argv] ∧
      (Shim.SDL_AppInit env appstate argc argv s).1
        = (env.v_sdl_app_init appstate argc argv w3).1 ∧
      (Shim.SDL_AppInit env appstate argc argv s).2.world
        = (env.v_sdl_app_init appstate argc argv w3).2 ∧
      (env.InitKeepsProcessArgs →
        (Shim.SDL_AppInit env appstate argc argv s).2.world.ProcessArgs = (argc, argv))) ∧
    (∀ addr : Nat, w3.g_sdl_app_init = InitFn.app addr →
      (Postinclude.SDL_AppInit env appstate argc argv s).1
        = (env.app_init addr appstate argc argv w3).1 ∧
      (Postinclude.SDL_AppInit env appstate argc argv s).2.world
        = (env.app_init addr appstate argc argv w3).2 ∧
      (Postinclude.SDL_AppInit env appstate argc argv s).2.trace
        = s.trace ++ [Action.store_g_main_argc argc, Action.store_g_main_argv argv] ++ boot
            ++ [Action._vinit argc argv,
                Action.g_sdl_app_init (InitFn.app addr) appstate argc argv]) ∧
    (w3.g_sdl_app_init = InitFn.nop_sdl_app_init →
      (Postinclude.SDL_AppInit env appstate argc argv s).1 = SDL_APP_CONTINUE ∧
      (Postinclude.SDL_AppInit env appstate argc argv s).2.world = w3) := by
  intro w1 w2 w3 boot
  have hres : (Postinclude.SDL_AppInit env appstate argc argv s).1
      = (w3.g_sdl_app_init.run env appstate argc argv w3).1 := by
    simp only [Postinclude.SDL_AppInit, State.exec, State.call, w3, w2, w1]
    cases env._VGCBOEHM <;> simp
  have hwld : (Postinclude.SDL_AppInit env appstate argc argv s).2.world
      = (w3.g_sdl_app_init.run env appstate argc argv w3).2 := by
    simp only [Postinclude.SDL_AppInit, State.exec, State.call, w3, w2, w1]
    cases env._VGCBOEHM <;> simp
  have htrc : (Postinclude.SDL_AppInit env appstate argc argv s).2.trace
      = s.trace ++ [Action.store_g_main_argc argc, Action.store_g_main_argv argv] ++ boot
          ++ [Action._vinit argc argv,
              Action.g_sdl_app_init w3.g_sdl_app_init appstate argc argv] := by
    simp only [Postinclude.SDL_AppInit, State.exec, State.call, w3, w2, w1, boot]
    cases env._VGCBOEHM <;> simp
  have hkeep : env.InitKeepsProcessArgs → w3.ProcessArgs = (argc, argv) := by
    rintro ⟨h1, h2, h3, -, -⟩
    show (env._vinit argc argv w2).ProcessArgs = (argc, argv)
    rw [h3]
    show (if env._VGCBOEHM then env.GC_INIT (env.GC_set_pages_executable 0 w1)
      else w1).ProcessArgs = (argc, argv)
    cases env._VGCBOEHM
    · rfl
    · simp only [if_true]
      rw [h2, h1]
      rfl
  refine ⟨rfl, ⟨htrc, hres, hwld, ?_⟩, ⟨?_, ?_, ?_, ?_⟩, ?_, ?_⟩
  · intro h
    rw [hwld, ← hkeep h]
    obtain ⟨-, -, -, h4, -⟩ := h
    cases hf : w3.g_sdl_app_init with
    | nop_sdl_app_init => rfl
    | app addr => exact h4 addr appstate argc argv w3
  · simp only [Shim.SDL_AppInit, State.exec, State.call, w3, w2, w1, boot]
    cases env._VGCBOEHM <;> simp
  · simp only [Shim.SDL_AppInit, State.exec, State.call, w3, w2, w1]
    cases env._VGCBOEHM <;> simp
  · simp only [Shim.SDL_AppInit, State.exec, State.call, w3, w2, w1]
    cases env._VGCBOEHM <;> simp
  · intro h
    have hw : (Shim.SDL_AppInit env appstate argc argv s).2.world
        = (env.v_sdl_app_init appstate argc argv w3).2 := by
      simp only [Shim.SDL_AppInit, State.exec, State.call, w3, w2, w1]
      cases env._VGCBOEHM <;> simp
    rw [hw, ← hkeep h]
    exact h.2.2.2.2 appstate argc argv w3
  · intro addr hs
    rw [hres, hwld, htrc, hs]
    exact ⟨rfl, rfl, rfl⟩
  · intro hs
    rw [hres, hwld, hs]
    exact ⟨rfl, rfl⟩

/-- C2, instantiated: in the sample environment no callee of Init writes the stored
arguments, and after `SDL_AppInit(64, 3, 512)` they are `(3, 512)` in both
variants; with the application callback at address 1 in the init slot, which
returns `SDL_APP_FAILURE`, Init returns `SDL_APP_FAILURE`. -/
theorem C2_SDL_AppInit_order_witness :
    sampleEnv.InitKeepsProcessArgs ∧
    (Postinclude.SDL_AppInit sampleEnv 64 3 512 ⟨sampleWorld, []⟩).2.world.ProcessArgs
      = (3, 512) ∧
    (Shim.SDL_AppInit sampleEnv 64 3 512 ⟨sampleWorld, []⟩).2.world.ProcessArgs
      = (3, 512) ∧
    (Postinclude.SDL_AppInit sampleEnv 64 3 512
        ⟨sampleWorld.assign (Override.init (InitFn.app 1)), []⟩).1 = SDL_APP_FAILURE ∧
    (Postinclude.SDL_AppInit sampleEnv 64 3 512 ⟨sampleWorld, []⟩).1 = SDL_APP_CONTINUE :=
  have h : sampleEnv.InitKeepsProcessArgs :=
    ⟨fun _ _ => rfl, fun _ => rfl, fun _ _ _ => rfl, fun _ _ _ _ _ => rfl,
      fun _ _ _ _ => rfl⟩
  ⟨h, (C2_SDL_AppInit_order sampleEnv 64 3 512 ⟨sampleWorld, []⟩).2.1.2.2.2 h,
    (C2_SDL_AppInit_order sampleEnv 64 3 512 ⟨sampleWorld, []⟩).2.2.1.2.2.2 h,
    ((C2_SDL_AppInit_order sampleEnv 64 3 512
      ⟨sampleWorld.assign (Override.init (InitFn.app 1)), []⟩).2.2.2.1 1 rfl).1,
    ((C2_SDL_AppInit_order sampleEnv 64 3 512 ⟨sampleWorld, []⟩).2.2.2.2 rfl).1⟩

/-- C2 as stated fails: the application assigns its function at address 1 to the init
slot, and that function stores `0` into `g_main_argc` and `g_main_argv` before
it returns; the host calls `SDL_AppInit(64, 3, 512)`, and after the call the
stored arguments are `(0, 0)`, not the host's `(3, 512)`. -/
theorem C2_SDL_AppInit_order_counterexample :
    clobberEnv.app_init 1 64 3 512 sampleWorld
      = (SDL_APP_CONTINUE, { sampleWorld with g_main_argc := 0, g_main_argv := 0 }) ∧
    (Postinclude.SDL_AppInit clobberEnv 64 3 512
        ⟨sampleWorld.assign (Override.init (InitFn.app 1)), []⟩).2.world.ProcessArgs
      = (0, 0) ∧
    (Postinclude.SDL_AppInit clobberEnv 64 3 512
        ⟨sampleWorld.assign (Override.init (InitFn.app 1)), []⟩).2.world.ProcessArgs
      ≠ (3, 512) := by
  refine ⟨rfl, rfl, ?_⟩
  show ((0 : Int), (0 : Ptr)) ≠ (3, 512)
  decide

/-- C3: for every `appstate` and every `result` (`SDL_APP_FAILURE` included), `SDL_AppQuit`
(both variants) makes exactly two calls: first the quit slot (the exported
`v_sdl_app_quit` in the shim) with the host's `(appstate, result)`, then
`_vcleanup`, which runs on the state the quit callback returned; so cleanup is
called once, after the quit slot, and never skipped.  With the application
callback at any address in the quit slot, `_vcleanup` runs on the state that
`app_quit` at that address returned for `(appstate, result)`; with the default
in the slot it runs on the unchanged state. -/
theorem C3_SDL_AppQuit_order (env : Env) (appstate : Ptr) (result : SDL_AppResult)
    (s : State) :
    ((Postinclude.SDL_AppQuit env appstate result s).trace
        = s.trace ++ [Action.g_sdl_app_quit s.world.g_sdl_app_quit appstate result,
            Action._vcleanup] ∧
      (Postinclude.SDL_AppQuit env appstate result s).world
        = env._vcleanup (s.world.g_sdl_app_quit.run env appstate result s.world)) ∧
    ((Shim.SDL_AppQuit env appstate result s).trace
        = s.trace ++ [Action.v_sdl_app_quit appstate result, Action._vcleanup] ∧
      (Shim.SDL_AppQuit env appstate result s).world
        = env._vcleanup (env.v_sdl_app_quit appstate result s.world)) ∧
    ((Postinclude.SDL_AppQuit env appstate result ⟨s.world, []⟩).trace.countP
        Action.isRuntimeCleanup = 1 ∧
      (Shim.SDL_AppQuit env appstate result ⟨s.world, []⟩).trace.countP
        Action.isRuntimeCleanup = 1) ∧
    (∀ (addr : Nat) (w : World),
      (Postinclude.SDL_AppQuit env appstate result
          ⟨{ w with g_sdl_app_quit := QuitFn.app addr }, s.trace⟩).world
        = env._vcleanup (env.app_quit addr appstate result
            { w with g_sdl_app_quit := QuitFn.app addr }) ∧
      (Postinclude.SDL_AppQuit env appstate result
          ⟨{ w with g_sdl_app_quit := QuitFn.app addr }, s.trace⟩).trace
        = s.trace ++ [Action.g_sdl_app_quit (QuitFn.app addr) appstate result,
            Action._vcleanup]) ∧
    (∀ w : World,
      (Postinclude.SDL_AppQuit env appstate result
          ⟨{ w with g_sdl_app_quit := QuitFn.nop_sdl_app_quit }, s.trace⟩).world
        = env._vcleanup { w with g_sdl_app_quit := QuitFn.nop_sdl_app_quit }) := by
  refine ⟨⟨?_, rfl⟩, ⟨?_, rfl⟩, ⟨?_, ?_⟩, fun _ _ => ⟨rfl, ?_⟩, fun _ => rfl⟩
  · simp [Postinclude.SDL_AppQuit, State.exec]
  · simp [Shim.SDL_AppQuit, State.exec]
  · simp [Postinclude.SDL_AppQuit, State.exec, Action.isRuntimeCleanup, List.countP_cons]
  · simp [Shim.SDL_AppQuit, State.exec, Action.isRuntimeCleanup, List.countP_cons]
  · simp [Postinclude.SDL_AppQuit, State.exec]

/-- C5: `SDL_AppEvent` and `SDL_AppIterate` (both variants) make exactly one call, the
event slot with the host's `(appstate, event)` and the iterate slot with the
host's `(appstate)` (the exported `v_sdl_app_event`, `v_sdl_app_iterate` in the
shim); result and final program state are exactly those the callee returned, so
the adapter itself calls neither `_vinit` nor `_vcleanup` and stores nothing; and
the event is not inspected: with the application callback at any address in the
event slot, result and final state are those of `app_event` at that address, and
with one in the iterate slot those of `app_iterate` at that address; for each
result value there is a callback for which a quit event, and an Iterate call,
yields that value; with the defaults in the slots the results are the defaults'
and the state is unchanged. -/
theorem C5_event_iterate_dispatch (env : Env) (appstate : Ptr) (event : SDL_Event)
    (s : State) :
    ((Postinclude.SDL_AppEvent env appstate event s).1
        = (s.world.g_sdl_app_event.run env appstate event s.world).1 ∧
      (Postinclude.SDL_AppEvent env appstate event s).2.world
        = (s.world.g_sdl_app_event.run env appstate event s.world).2 ∧
      (Postinclude.SDL_AppEvent env appstate event s).2.trace
        = s.trace ++ [Action.g_sdl_app_event s.world.g_sdl_app_event appstate event]) ∧
    ((Postinclude.SDL_AppIterate env appstate s).1
        = (s.world.g_sdl_app_iterate.run env appstate s.world).1 ∧
      (Postinclude.SDL_AppIterate env appstate s).2.world
        = (s.world.g_sdl_app_iterate.run env appstate s.world).2 ∧
      (Postinclude.SDL_AppIterate env appstate s).2.trace
        = s.trace ++ [Action.g_sdl_app_iterate s.world.g_sdl_app_iterate appstate]) ∧
    ((Shim.SDL_AppEvent env appstate event s).1
        = (env.v_sdl_app_event appstate event s.world).1 ∧
      (Shim.SDL_AppEvent env appstate event s).2.world
        = (env.v_sdl_app_event appstate event s.world).2 ∧
      (Shim.SDL_AppEvent env appstate event s).2.trace
        = s.trace ++ [Action.v_sdl_app_event appstate event]) ∧
    ((Shim.SDL_AppIterate env appstate s).1 = (env.v_sdl_app_iterate appstate s.world).1 ∧
      (Shim.SDL_AppIterate env appstate s).2.world
        = (env.v_sdl_app_iterate appstate s.world).2 ∧
      (Shim.SDL_AppIterate env appstate s).2.trace
        = s.trace ++ [Action.v_sdl_app_iterate appstate]) ∧
    (∀ (addr : Nat) (w : World),
      (Postinclude.SDL_AppEvent env appstate event
          ⟨{ w with g_sdl_app_event := EventFn.app addr }, s.trace⟩).1
        = (env.app_event addr appstate event
            { w with g_sdl_app_event := EventFn.app addr }).1) ∧
    (∀ (r : SDL_AppResult) (payload : List Nat),
      (Postinclude.SDL_AppEvent { env with app_event := fun _ _ _ w => (r, w) } appstate
          ⟨env.SDL_EVENT_QUIT, payload⟩
          ⟨{ s.world with g_sdl_app_event := EventFn.app 0 }, s.trace⟩).1 = r) ∧
    (∀ (addr : Nat) (w : World),
      (Postinclude.SDL_AppEvent env appstate event
          ⟨{ w with g_sdl_app_event := EventFn.app addr }, s.trace⟩).2.world
        = (env.app_event addr appstate event
            { w with g_sdl_app_event := EventFn.app addr }).2) ∧
    (∀ (addr : Nat) (w : World),
      (Postinclude.SDL_AppIterate env appstate
          ⟨{ w with g_sdl_app_iterate := IterateFn.app addr }, s.trace⟩).1
        = (env.app_iterate addr appstate
            { w with g_sdl_app_iterate := IterateFn.app addr }).1 ∧
      (Postinclude.SDL_AppIterate env appstate
          ⟨{ w with g_sdl_app_iterate := IterateFn.app addr }, s.trace⟩).2.world
        = (env.app_iterate addr appstate
            { w with g_sdl_app_iterate := IterateFn.app addr }).2) ∧
    (∀ r : SDL_AppResult,
      (Postinclude.SDL_AppIterate { env with app_iterate := fun _ _ w => (r, w) } appstate
          ⟨{ s.world with g_sdl_app_iterate := IterateFn.app 0 }, s.trace⟩).1 = r) ∧
    (∀ w : World,
      (Postinclude.SDL_AppEvent env appstate event
          ⟨{ w with g_sdl_app_event := EventFn.nop_sdl_app_event }, s.trace⟩).1
        = (if event.type = env.SDL_EVENT_QUIT then SDL_APP_SUCCESS else SDL_APP_CONTINUE) ∧
      (Postinclude.SDL_AppEvent env appstate event
          ⟨{ w with g_sdl_app_event := EventFn.nop_sdl_app_event }, s.trace⟩).2.world
        = { w with g_sdl_app_event := EventFn.nop_sdl_app_event }) ∧
    (∀ w : World,
      (Postinclude.SDL_AppIterate env appstate
          ⟨{ w with g_sdl_app_iterate := IterateFn.nop_sdl_app_iterate }, s.trace⟩).1
        = SDL_APP_CONTINUE ∧
      (Postinclude.SDL_AppIterate env appstate
          ⟨{ w with g_sdl_app_iterate := IterateFn.nop_sdl_app_iterate }, s.trace⟩).2.world
        = { w with g_sdl_app_iterate := IterateFn.nop_sdl_app_iterate }) := by
  refine ⟨⟨rfl, rfl, rfl⟩, ⟨rfl, rfl, rfl⟩, ⟨rfl, rfl, rfl⟩, ⟨rfl, rfl, rfl⟩,
    fun _ _ => rfl, fun _ _ => rfl, fun _ _ => rfl, fun _ _ => ⟨rfl, rfl⟩, fun _ => rfl,
    ?_, fun _ => ⟨rfl, rfl⟩⟩
  intro w
  simp only [Postinclude.SDL_AppEvent, State.call, EventFn.run, nop_sdl_app_event]
  constructor <;> split <;> rfl

/-- C8: what `SDL_AppInit` (both variants) does about the collector is decided by
`_VGCBOEHM` alone.  When it is defined, each call of Init calls
`GC_set_pages_executable(0)` and then `GC_INIT()`, once each, both before
`_vinit` and before the init slot (they run on the state the two stores left and
`_vinit` runs on the state they return); when it is not defined neither is
called, and `_vinit` and the init slot are still called. -/
theorem C8_allocator_bootstrap (env : Env) (appstate : Ptr) (argc : Int) (argv : Ptr)
    (s : State) :
    let w1 : World := { s.world with g_main_argc := argc, g_main_argv := argv }
    let wgc : World := env.GC_INIT (env.GC_set_pages_executable 0 w1)
    (env._VGCBOEHM = true →
      (Postinclude.SDL_AppInit env appstate argc argv s).2.trace
        = s.trace ++ [Action.store_g_main_argc argc, Action.store_g_main_argv argv,
            Action.GC_set_pages_executable 0, Action.GC_INIT, Action._vinit argc argv,
            Action.g_sdl_app_init (env._vinit argc argv wgc).g_sdl_app_init
              appstate argc argv] ∧
      (Postinclude.SDL_AppInit env appstate argc argv s).2.world
        = ((env._vinit argc argv wgc).g_sdl_app_init.run env appstate argc argv
            (env._vinit argc argv wgc)).2 ∧
      (Shim.SDL_AppInit env appstate argc argv s).2.trace
        = s.trace ++ [Action.store_g_main_argc argc, Action.store_g_main_argv argv,
            Action.GC_set_pages_executable 0, Action.GC_INIT, Action._vinit argc argv,
            Action.v_sdl_app_init appstate argc argv] ∧
      (Shim.SDL_AppInit env appstate argc argv s).2.world
        = (env.v_sdl_app_init appstate argc argv (env._vinit argc argv wgc)).2) ∧
    (env._VGCBOEHM = false →
      (Postinclude.SDL_AppInit env appstate argc argv s).2.trace
        = s.trace ++ [Action.store_g_main_argc argc, Action.store_g_main_argv argv,
            Action._vinit argc argv,
            Action.g_sdl_app_init (env._vinit argc argv w1).g_sdl_app_init
              appstate argc argv] ∧
      (Postinclude.SDL_AppInit env appstate argc argv s).2.world
        = ((env._vinit argc argv w1).g_sdl_app_init.run env appstate argc argv
            (env._vinit argc argv w1)).2 ∧
      (Shim.SDL_AppInit env appstate argc argv s).2.trace
        = s.trace ++ [Action.store_g_main_argc argc, Action.store_g_main_argv argv,
            Action._vinit argc argv, Action.v_sdl_app_init appstate argc argv] ∧
      (Shim.SDL_AppInit env appstate argc argv s).2.world
        = (env.v_sdl_app_init appstate argc argv (env._vinit argc argv w1)).2) := by
  intro w1 wgc
  constructor
  · intro h
    simp [Postinclude.SDL_AppInit, Shim.SDL_AppInit, State.exec, State.call, h, wgc, w1]
  · intro h
    simp [Postinclude.SDL_AppInit, Shim.SDL_AppInit, State.exec, State.call, h, w1]

/-- C8, instantiated with the collector compiled in (the sample environment) and
compiled out: the exact trace of `SDL_AppInit(64, 3, 512)` from the load-time
slots. -/
theorem C8_allocator_bootstrap_witness :
    (Postinclude.SDL_AppInit sampleEnv 64 3 512 ⟨sampleWorld, []⟩).2.trace
      = [Action.store_g_main_argc 3, Action.store_g_main_argv 512,
          Action.GC_set_pages_executable 0, Action.GC_INIT, Action._vinit 3 512,
          Action.g_sdl_app_init InitFn.nop_sdl_app_init 64 3 512] ∧
    (Postinclude.SDL_AppInit { sampleEnv with _VGCBOEHM := false } 64 3 512
        ⟨sampleWorld, []⟩).2.trace
      = [Action.store_g_main_argc 3, Action.store_g_main_argv 512, Action._vinit 3 512,
          Action.g_sdl_app_init InitFn.nop_sdl_app_init 64 3 512] :=
  ⟨((C8_allocator_bootstrap sampleEnv 64 3 512 ⟨sampleWorld, []⟩).1 rfl).1,
    ((C8_allocator_bootstrap { sampleEnv with _VGCBOEHM := false } 64 3 512
      ⟨sampleWorld, []⟩).2 rfl).1⟩

/-- C10: `V_GC_SDL_calloc(n, size)` works with `msize = (n * size) mod 2 ^ w`, `w` the width
of `size_t`.  With `_VGCBOEHM` defined it calls `GC_MALLOC(msize)` and then
`memset` on the returned block with value `0` and length `msize`, without
checking the product or the block.  When the block is not null (or `msize` is
`0`) the function returns that block: exactly the `msize` bytes from its start
are zero afterwards and everything else is as the allocator left it.  When the
collector hands out null for `msize > 0` the `memset` faults and the function
does not return.  `msize` is `n * size` exactly when the product is below
`2 ^ w`, and strictly smaller when it is not.  Without `_VGCBOEHM` the function
returns `0` and does nothing, for every `n` and `size`. -/
theorem C10_V_GC_SDL_calloc (env : Env) (n size : Nat) (s : State) :
    let msize : Nat := (n * size) % 2 ^ env.size_t_bits
    let p : Ptr := (env.GC_MALLOC msize s.world).1
    let wa : World := (env.GC_MALLOC msize s.world).2
    (env._VGCBOEHM = true → (p ≠ 0 ∨ msize = 0) →
      ∃ w2 : World,
        V_GC_SDL_calloc env n size s
          = Except.ok (p, ⟨w2, s.trace ++ [Action.GC_MALLOC msize, Action.memset p 0 msize]⟩) ∧
        (∀ a, p ≤ a → a < p + msize → w2.mem a = 0) ∧
        (∀ a, ¬ (p ≤ a ∧ a < p + msize) → w2.mem a = wa.mem a) ∧
        w2.slots = wa.slots ∧ w2.ProcessArgs = wa.ProcessArgs) ∧
    (env._VGCBOEHM = true → p = 0 → 0 < msize →
      V_GC_SDL_calloc env n size s
        = Except.error
            ⟨wa, s.trace ++ [Action.GC_MALLOC msize, Action.memset 0 0 msize]⟩) ∧
    (env._VGCBOEHM = false → V_GC_SDL_calloc env n size s = Except.ok (0, s)) ∧
    (msize = n * size ↔ n * size < 2 ^ env.size_t_bits) ∧
    (2 ^ env.size_t_bits ≤ n * size → msize < n * size) := by
  intro msize p wa
  have hpos : 0 < 2 ^ env.size_t_bits := Nat.pow_pos (by decide)
  refine ⟨?_, ?_, ?_, ?_, ?_⟩
  · intro h hp
    have hcond : ¬ (p = 0 ∧ 0 < msize) := by
      rintro ⟨h1, h2⟩
      rcases hp with hp | hp
      · exact hp h1
      · omega
    refine ⟨{ wa with mem := fun a => if p ≤ a ∧ a < p + msize then 0 else wa.mem a },
      ?_, ?_, ?_, rfl, rfl⟩
    · simp only [p, msize] at hcond
      simp [V_GC_SDL_calloc, State.call, memset, h, p, msize, wa, hcond]
    · intro a h1 h2
      simp [h1, h2]
    · intro a hn
      simp only [if_neg hn]
  · intro h hp hm
    have hcond : p = 0 ∧ 0 < msize := ⟨hp, hm⟩
    simp only [p, msize] at hcond hp
    simp [V_GC_SDL_calloc, State.call, memset, h, msize, wa, hcond, hp]
  · intro h
    simp [V_GC_SDL_calloc, h]
  · constructor
    · intro h
      have : msize < 2 ^ env.size_t_bits := Nat.mod_lt _ hpos
      omega
    · intro h
      exact Nat.mod_eq_of_lt h
  · intro h
    have : msize < 2 ^ env.size_t_bits := Nat.mod_lt _ hpos
    omega

/-- C10, instantiated at 64 bits: `V_GC_SDL_calloc(2^63, 2)` asks the collector for `0`
bytes and zero-fills `0` bytes although `2^63 * 2` bytes were asked of it, while
`V_GC_SDL_calloc(3, 5)` asks for and zero-fills `15` and returns the block; with
a collector that hands out null, `V_GC_SDL_calloc(3, 5)` faults in `memset`;
with the collector compiled out the result is `0`. -/
theorem C10_V_GC_SDL_calloc_witness :
    (∃ w2 : World,
      V_GC_SDL_calloc sampleEnv (2 ^ 63) 2 ⟨sampleWorld, []⟩
        = Except.ok (4096, ⟨w2, [Action.GC_MALLOC 0, Action.memset 4096 0 0]⟩)) ∧
    (∃ w2 : World,
      V_GC_SDL_calloc sampleEnv 3 5 ⟨sampleWorld, []⟩
        = Except.ok (4096, ⟨w2, [Action.GC_MALLOC 15, Action.memset 4096 0 15]⟩) ∧
      w2.mem 4095 = 0xAA ∧ w2.mem 4096 = 0 ∧ w2.mem 4110 = 0 ∧ w2.mem 4111 = 0xAA) ∧
    V_GC_SDL_calloc { sampleEnv with GC_MALLOC := fun _ w => (0, w) } 3 5 ⟨sampleWorld, []⟩
      = Except.error ⟨sampleWorld, [Action.GC_MALLOC 15, Action.memset 0 0 15]⟩ ∧
    V_GC_SDL_calloc { sampleEnv with _VGCBOEHM := false } 3 5 ⟨sampleWorld, []⟩
      = Except.ok (0, ⟨sampleWorld, []⟩) :=
  ⟨(((C10_V_GC_SDL_calloc sampleEnv (2 ^ 63) 2 ⟨sampleWorld, []⟩).1 rfl
      (Or.inl (by decide))).imp fun _ h => h.1),
    (((C10_V_GC_SDL_calloc sampleEnv 3 5 ⟨sampleWorld, []⟩).1 rfl
      (Or.inl (by decide))).imp fun _ h =>
        ⟨h.1, (h.2.2.1 4095 (by decide)).trans rfl, h.2.1 4096 (by decide) (by decide),
          h.2.1 4110 (by decide) (by decide), (h.2.2.1 4111 (by decide)).trans rfl⟩),
    (C10_V_GC_SDL_calloc { sampleEnv with GC_MALLOC := fun _ w => (0, w) } 3 5
      ⟨sampleWorld, []⟩).2.1 rfl rfl (by decide),
    (C10_V_GC_SDL_calloc { sampleEnv with _VGCBOEHM := false } 3 5
      ⟨sampleWorld, []⟩).2.2.1 rfl⟩

/-! ### Sequences of host calls -/

/-- The slot call of a host call depends on the slots only. -/
theorem HostCall.dispatch_congr {w w2 : World} (h : w.slots = w2.slots) (c : HostCall) :
    c.dispatch w = c.dispatch w2 := by
  simp only [World.slots, Prod.mk.injEq] at h
  obtain ⟨h1, h2, h3, h4⟩ := h
  cases c <;> simp [HostCall.dispatch, h1, h2, h3, h4]

/-- The state in which `SDL_AppInit` reads the init slot has the slots of the state it
was entered in, when the collector entry points and `_vinit` assign none. -/
theorem boot_slots (env : Env) (h : env.BootKeepsSlots) (argc : Int) (argv : Ptr) (w : World) :
    (env._vinit argc argv
      (if env._VGCBOEHM then
        env.GC_INIT (env.GC_set_pages_executable 0
          { w with g_main_argc := argc, g_main_argv := argv })
      else { w with g_main_argc := argc, g_main_argv := argv })).slots = w.slots := by
  obtain ⟨h1, h2, h3⟩ := h
  rw [h3]
  cases env._VGCBOEHM
  · rfl
  · simp only [if_true]
    rw [h2, h1]
    rfl

/-- A call through the init slot assigns no slot when no application callback does. -/
theorem initFn_run_slots (env : Env) (h : env.KeepsSlots) (f : InitFn) (a : Ptr) (c : Int)
    (v : Ptr) (w : World) : (f.run env a c v w).2.slots = w.slots := by
  cases f with
  | nop_sdl_app_init => rfl
  | app addr => exact h.2.2.1 addr a c v w

/-- A call through the quit slot assigns no slot when no application callback does. -/
theorem quitFn_run_slots (env : Env) (h : env.KeepsSlots) (f : QuitFn) (a : Ptr)
    (r : SDL_AppResult) (w : World) : (f.run env a r w).slots = w.slots := by
  cases f with
  | nop_sdl_app_quit => rfl
  | app addr => exact h.2.2.2.1 addr a r w

/-- A call through the event slot assigns no slot when no application callback does. -/
theorem eventFn_run_slots (env : Env) (h : env.KeepsSlots) (f : EventFn) (a : Ptr)
    (e : SDL_Event) (w : World) : (f.run env a e w).2.slots = w.slots := by
  cases f with
  | nop_sdl_app_event =>
    show (nop_sdl_app_event env.SDL_EVENT_QUIT a e w).2.slots = w.slots
    unfold nop_sdl_app_event
    split <;> rfl
  | app addr => exact h.2.2.2.2.1 addr a e w

/-- A call through the iterate slot assigns no slot when no application callback does. -/
theorem iterateFn_run_slots (env : Env) (h : env.KeepsSlots) (f : IterateFn) (a : Ptr)
    (w : World) : (f.run env a w).2.slots = w.slots := by
  cases f with
  | nop_sdl_app_iterate => rfl
  | app addr => exact h.2.2.2.2.2 addr a w

/-- The result of `SDL_AppInit`, the world it ends in and the steps it adds, spelled out. -/
theorem Postinclude.SDL_AppInit_spelled (env : Env) (a : Ptr) (c : Int) (v : Ptr) (s : State) :
    (Postinclude.SDL_AppInit env a c v s).1
      = ((env._vinit c v
          (if env._VGCBOEHM then
            env.GC_INIT (env.GC_set_pages_executable 0
              { s.world with g_main_argc := c, g_main_argv := v })
          else { s.world with g_main_argc := c, g_main_argv := v })).g_sdl_app_init.run env a c v
        (env._vinit c v
          (if env._VGCBOEHM then
            env.GC_INIT (env.GC_set_pages_executable 0
              { s.world with g_main_argc := c, g_main_argv := v })
          else { s.world with g_main_argc := c, g_main_argv := v }))).1 ∧
    (Postinclude.SDL_AppInit env a c v s).2.world
      = ((env._vinit c v
          (if env._VGCBOEHM then
            env.GC_INIT (env.GC_set_pages_executable 0
              { s.world with g_main_argc := c, g_main_argv := v })
          else { s.world with g_main_argc := c, g_main_argv := v })).g_sdl_app_init.run env a c v
        (env._vinit c v
          (if env._VGCBOEHM then
            env.GC_INIT (env.GC_set_pages_executable 0
              { s.world with g_main_argc := c, g_main_argv := v })
          else { s.world with g_main_argc := c, g_main_argv := v }))).2 ∧
    (Postinclude.SDL_AppInit env a c v s).2.trace
      = s.trace ++ ([Action.store_g_main_argc c, Action.store_g_main_argv v]
          ++ (if env._VGCBOEHM then [Action.GC_set_pages_executable 0, Action.GC_INIT]
              else [])
          ++ [Action._vinit c v,
              Action.g_sdl_app_init (env._vinit c v
                (if env._VGCBOEHM then
                  env.GC_INIT (env.GC_set_pages_executable 0
                    { s.world with g_main_argc := c, g_main_argv := v })
                else { s.world with g_main_argc := c, g_main_argv := v })).g_sdl_app_init
                a c v]) := by
  simp only [Postinclude.SDL_AppInit, State.exec, State.call]
  cases env._VGCBOEHM <;> simp

/-- One host call keeps the slots when no callee assigns one. -/
theorem Postinclude.hostStep_slots (env : Env) (h : env.KeepsSlots) (s : State) (c : HostCall) :
    (Postinclude.hostStep env s c).world.slots = s.world.slots := by
  cases c with
  | Init a argc argv =>
    show (Postinclude.SDL_AppInit env a argc argv s).2.world.slots = s.world.slots
    rw [(Postinclude.SDL_AppInit_spelled env a argc argv s).2.1, initFn_run_slots env h]
    exact boot_slots env h.1 argc argv s.world
  | Event a e => exact eventFn_run_slots env h _ a e s.world
  | Iterate a => exact iterateFn_run_slots env h _ a s.world
  | Quit a r =>
    show (env._vcleanup (s.world.g_sdl_app_quit.run env a r s.world)).slots = s.world.slots
    rw [h.2.1, quitFn_run_slots env h]

/-- One host call adds exactly one slot call, through the slot as it was at entry, when
the collector entry points and `_vinit` assign no slot. -/
theorem Postinclude.hostStep_slotCalls (env : Env) (h : env.BootKeepsSlots) (s : State)
    (c : HostCall) :
    (Postinclude.hostStep env s c).trace.filter Action.isSlotCall
      = s.trace.filter Action.isSlotCall ++ [c.dispatch s.world] := by
  cases c with
  | Init a argc argv =>
    show (Postinclude.SDL_AppInit env a argc argv s).2.trace.filter Action.isSlotCall = _
    rw [(Postinclude.SDL_AppInit_spelled env a argc argv s).2.2]
    have hs := boot_slots env h argc argv s.world
    simp only [World.slots, Prod.mk.injEq] at hs
    rw [hs.1]
    cases env._VGCBOEHM <;>
      simp [List.filter_cons, Action.isSlotCall, HostCall.dispatch]
  | Event a e =>
    simp [Postinclude.hostStep, Postinclude.SDL_AppEvent, State.call, List.filter_cons,
      Action.isSlotCall, HostCall.dispatch]
  | Iterate a =>
    simp [Postinclude.hostStep, Postinclude.SDL_AppIterate, State.call, List.filter_cons,
      Action.isSlotCall, HostCall.dispatch]
  | Quit a r =>
    simp [Postinclude.hostStep, Postinclude.SDL_AppQuit, State.exec, List.filter_cons,
      Action.isSlotCall, HostCall.dispatch]

/-- A sequence of host calls keeps the slots and adds one slot call per host call, each
through the slot as it was before the sequence, when no callee assigns a slot. -/
theorem Postinclude.hostRun_slotCalls (env : Env) (h : env.KeepsSlots) (calls : List HostCall)
    (s : State) :
    (Postinclude.hostRun env calls s).world.slots = s.world.slots ∧
    (Postinclude.hostRun env calls s).trace.filter Action.isSlotCall
      = s.trace.filter Action.isSlotCall ++ calls.map (HostCall.dispatch s.world) := by
  induction calls generalizing s with
  | nil => simp [Postinclude.hostRun]
  | cons c rest ih =>
    have hstep := Postinclude.hostStep_slots env h s c
    have htr := Postinclude.hostStep_slotCalls env h.1 s c
    obtain ⟨ih1, ih2⟩ := ih (Postinclude.hostStep env s c)
    have hrun : Postinclude.hostRun env (c :: rest) s
        = Postinclude.hostRun env rest (Postinclude.hostStep env s c) := rfl
    rw [hrun]
    refine ⟨ih1.trans hstep, ?_⟩
    rw [ih2, htr]
    have hmap : rest.map (HostCall.dispatch (Postinclude.hostStep env s c).world)
        = rest.map (HostCall.dispatch s.world) :=
      List.map_congr_left (fun x _ => HostCall.dispatch_congr hstep x)
    rw [hmap]
    simp

/-- C4: let the application assign an override `f` to one slot before the host starts,
and let no callee of the adapter (hook, collector call, application callback)
assign a slot afterwards.  Then after every sequence of host calls the slots
are still as they were right after the assignment, and the next call of each
entry point runs what its slot held then: through the assigned slot the
function `f` and nothing else (for an application function at some address,
result and state are those of that function, not the default's), through the
other three slots what they held before the assignment.  The slot calls made
are exactly one per host call, and no entry point changes a slot. -/
theorem C4_override_dispatch (env : Env) (h : env.KeepsSlots) (w0 : World) (o : Override)
    (calls : List HostCall) :
    let w : World := w0.assign o
    let run : State := Postinclude.hostRun env calls ⟨w, []⟩
    w.slots = (match o with
      | Override.init f => (f, w0.g_sdl_app_quit, w0.g_sdl_app_event, w0.g_sdl_app_iterate)
      | Override.quit f => (w0.g_sdl_app_init, f, w0.g_sdl_app_event, w0.g_sdl_app_iterate)
      | Override.event f => (w0.g_sdl_app_init, w0.g_sdl_app_quit, f, w0.g_sdl_app_iterate)
      | Override.iterate f =>
        (w0.g_sdl_app_init, w0.g_sdl_app_quit, w0.g_sdl_app_event, f)) ∧
    run.trace.filter Action.isSlotCall = calls.map (HostCall.dispatch w) ∧
    (∀ g a c v, Action.g_sdl_app_init g a c v ∈ run.trace → g = w.g_sdl_app_init) ∧
    (∀ g a r, Action.g_sdl_app_quit g a r ∈ run.trace → g = w.g_sdl_app_quit) ∧
    (∀ g a e, Action.g_sdl_app_event g a e ∈ run.trace → g = w.g_sdl_app_event) ∧
    (∀ g a, Action.g_sdl_app_iterate g a ∈ run.trace → g = w.g_sdl_app_iterate) ∧
    run.world.slots = w.slots ∧
    (∀ (s : State) (c : HostCall), (Postinclude.hostStep env s c).world.slots
      = s.world.slots) ∧
    (∀ addr : Nat, w.g_sdl_app_event = EventFn.app addr → ∀ (a : Ptr) (e : SDL_Event),
      (Postinclude.SDL_AppEvent env a e run).1 = (env.app_event addr a e run.world).1 ∧
      (Postinclude.SDL_AppEvent env a e run).2.world
        = (env.app_event addr a e run.world).2) ∧
    (w.g_sdl_app_event = EventFn.nop_sdl_app_event → ∀ (a : Ptr) (e : SDL_Event),
      (Postinclude.SDL_AppEvent env a e run).1
        = (if e.type = env.SDL_EVENT_QUIT then SDL_APP_SUCCESS else SDL_APP_CONTINUE) ∧
      (Postinclude.SDL_AppEvent env a e run).2.world = run.world) ∧
    (∀ addr : Nat, w.g_sdl_app_iterate = IterateFn.app addr → ∀ a : Ptr,
      (Postinclude.SDL_AppIterate env a run).1 = (env.app_iterate addr a run.world).1 ∧
      (Postinclude.SDL_AppIterate env a run).2.world
        = (env.app_iterate addr a run.world).2) ∧
    (w.g_sdl_app_iterate = IterateFn.nop_sdl_app_iterate → ∀ a : Ptr,
      (Postinclude.SDL_AppIterate env a run).1 = SDL_APP_CONTINUE ∧
      (Postinclude.SDL_AppIterate env a run).2.world = run.world) ∧
    (∀ addr : Nat, w.g_sdl_app_quit = QuitFn.app addr → ∀ (a : Ptr) (r : SDL_AppResult),
      (Postinclude.SDL_AppQuit env a r run).world
        = env._vcleanup (env.app_quit addr a r run.world)) ∧
    (w.g_sdl_app_quit = QuitFn.nop_sdl_app_quit → ∀ (a : Ptr) (r : SDL_AppResult),
      (Postinclude.SDL_AppQuit env a r run).world = env._vcleanup run.world) ∧
    (∀ addr : Nat, w.g_sdl_app_init = InitFn.app addr → ∀ (a : Ptr) (c : Int) (v : Ptr),
      (Postinclude.SDL_AppInit env a c v run).1
        = (env.app_init addr a c v
            (env._vinit c v
              (if env._VGCBOEHM then
                env.GC_INIT (env.GC_set_pages_executable 0
                  { run.world with g_main_argc := c, g_main_argv := v })
              else { run.world with g_main_argc := c, g_main_argv := v }))).1 ∧
      (Postinclude.SDL_AppInit env a c v run).2.world
        = (env.app_init addr a c v
            (env._vinit c v
              (if env._VGCBOEHM then
                env.GC_INIT (env.GC_set_pages_executable 0
                  { run.world with g_main_argc := c, g_main_argv := v })
              else { run.world with g_main_argc := c, g_main_argv := v }))).2) ∧
    (w.g_sdl_app_init = InitFn.nop_sdl_app_init → ∀ (a : Ptr) (c : Int) (v : Ptr),
      (Postinclude.SDL_AppInit env a c v run).1 = SDL_APP_CONTINUE ∧
      (Postinclude.SDL_AppInit env a c v run).2.world
        = env._vinit c v
            (if env._VGCBOEHM then
              env.GC_INIT (env.GC_set_pages_executable 0
                { run.world with g_main_argc := c, g_main_argv := v })
            else { run.world with g_main_argc := c, g_main_argv := v })) := by
  intro w run
  obtain ⟨hslots, hfilter⟩ := Postinclude.hostRun_slotCalls env h calls ⟨w, []⟩
  simp only [List.filter_nil, List.nil_append] at hfilter
  have hmem : ∀ x : Action, x.isSlotCall = true → x ∈ run.trace →
      ∃ c : HostCall, c.dispatch w = x := by
    intro x hx hin
    have : x ∈ run.trace.filter Action.isSlotCall := List.mem_filter.2 ⟨hin, hx⟩
    rw [show run.trace.filter Action.isSlotCall = calls.map (HostCall.dispatch w)
      from hfilter] at this
    obtain ⟨c, -, hc⟩ := List.mem_map.1 this
    exact ⟨c, hc⟩
  have hsl : run.world.slots = w.slots := hslots
  have hsl4 := hsl
  simp only [World.slots, Prod.mk.injEq] at hsl4
  obtain ⟨hi, hq, he, ht⟩ := hsl4
  have hboot : ∀ (c : Int) (v : Ptr),
      (env._vinit c v
        (if env._VGCBOEHM then
          env.GC_INIT (env.GC_set_pages_executable 0
            { run.world with g_main_argc := c, g_main_argv := v })
        else { run.world with g_main_argc := c, g_main_argv := v })).g_sdl_app_init
        = w.g_sdl_app_init := by
    intro c v
    have hb := boot_slots env h.1 c v run.world
    simp only [World.slots, Prod.mk.injEq] at hb
    exact hb.1.trans hi
  refine ⟨?_, hfilter, ?_, ?_, ?_, ?_, hslots, Postinclude.hostStep_slots env h,
    ?_, ?_, ?_, ?_, ?_, ?_, ?_, ?_⟩
  · cases o <;> rfl
  · intro g a c v hin
    obtain ⟨hc, hd⟩ := hmem (Action.g_sdl_app_init g a c v) rfl hin
    cases hc <;> simp [HostCall.dispatch] at hd
    exact hd.1.symm
  · intro g a r hin
    obtain ⟨hc, hd⟩ := hmem (Action.g_sdl_app_quit g a r) rfl hin
    cases hc <;> simp [HostCall.dispatch] at hd
    exact hd.1.symm
  · intro g a e hin
    obtain ⟨hc, hd⟩ := hmem (Action.g_sdl_app_event g a e) rfl hin
    cases hc <;> simp [HostCall.dispatch] at hd
    exact hd.1.symm
  · intro g a hin
    obtain ⟨hc, hd⟩ := hmem (Action.g_sdl_app_iterate g a) rfl hin
    cases hc <;> simp [HostCall.dispatch] at hd
    exact hd.1.symm
  · intro addr hs a e
    show (run.world.g_sdl_app_event.run env a e run.world).1 = _ ∧
      (run.world.g_sdl_app_event.run env a e run.world).2 = _
    rw [he, hs]
    exact ⟨rfl, rfl⟩
  · intro hs a e
    show (run.world.g_sdl_app_event.run env a e run.world).1 = _ ∧
      (run.world.g_sdl_app_event.run env a e run.world).2 = _
    rw [he, hs]
    show (nop_sdl_app_event env.SDL_EVENT_QUIT a e run.world).1 = _ ∧
      (nop_sdl_app_event env.SDL_EVENT_QUIT a e run.world).2 = _
    unfold nop_sdl_app_event
    constructor <;> split <;> rfl
  · intro addr hs a
    show (run.world.g_sdl_app_iterate.run env a run.world).1 = _ ∧
      (run.world.g_sdl_app_iterate.run env a run.world).2 = _
    rw [ht, hs]
    exact ⟨rfl, rfl⟩
  · intro hs a
    show (run.world.g_sdl_app_iterate.run env a run.world).1 = _ ∧
      (run.world.g_sdl_app_iterate.run env a run.world).2 = _
    rw [ht, hs]
    exact ⟨rfl, rfl⟩
  · intro addr hs a r
    show env._vcleanup (run.world.g_sdl_app_quit.run env a r run.world) = _
    rw [hq, hs]
    rfl
  · intro hs a r
    show env._vcleanup (run.world.g_sdl_app_quit.run env a r run.world) = _
    rw [hq, hs]
    rfl
  · intro addr hs a c v
    obtain ⟨hr, hw, -⟩ := Postinclude.SDL_AppInit_spelled env a c v run
    rw [hr, hw, hboot c v, hs]
    exact ⟨rfl, rfl⟩
  · intro hs a c v
    obtain ⟨hr, hw, -⟩ := Postinclude.SDL_AppInit_spelled env a c v run
    rw [hr, hw, hboot c v, hs]
    exact ⟨rfl, rfl⟩

/-- C4, instantiated: in the sample environment no callee assigns a slot; after
`g_sdl_app_event = f` with `f` the application function at address 9, which
returns `SDL_APP_FAILURE`, the host calls Init, Event (quit), Iterate, Event
(other), Quit: both Event calls go to `f` while Init, Iterate and Quit go to the
defaults; and after Init and one Event call, the next Event call for a quit
event returns the `SDL_APP_FAILURE` of `f`, not the default's answer. -/
theorem C4_override_dispatch_witness :
    sampleEnv.KeepsSlots ∧
    (Postinclude.hostRun sampleEnv
        [HostCall.Init 64 0 512, HostCall.Event 7 ⟨0x100, []⟩, HostCall.Iterate 7,
          HostCall.Event 7 ⟨0x300, [1]⟩, HostCall.Quit 7 SDL_APP_FAILURE]
        ⟨sampleWorld.assign (Override.event (EventFn.app 9)), []⟩).trace.filter
          Action.isSlotCall
      = [Action.g_sdl_app_init InitFn.nop_sdl_app_init 64 0 512,
          Action.g_sdl_app_event (EventFn.app 9) 7 ⟨0x100, []⟩,
          Action.g_sdl_app_iterate IterateFn.nop_sdl_app_iterate 7,
          Action.g_sdl_app_event (EventFn.app 9) 7 ⟨0x300, [1]⟩,
          Action.g_sdl_app_quit QuitFn.nop_sdl_app_quit 7 SDL_APP_FAILURE] ∧
    (Postinclude.SDL_AppEvent sampleEnv 7 ⟨0x100, []⟩
        (Postinclude.hostRun sampleEnv [HostCall.Init 64 0 512, HostCall.Event 7 ⟨0x300, []⟩]
          ⟨sampleWorld.assign (Override.event (EventFn.app 9)), []⟩)).1
      = SDL_APP_FAILURE ∧
    (Postinclude.SDL_AppIterate sampleEnv 7
        (Postinclude.hostRun sampleEnv [HostCall.Init 64 0 512, HostCall.Event 7 ⟨0x300, []⟩]
          ⟨sampleWorld.assign (Override.event (EventFn.app 9)), []⟩)).1
      = SDL_APP_CONTINUE :=
  have h : sampleEnv.KeepsSlots :=
    ⟨⟨fun _ _ => rfl, fun _ => rfl, fun _ _ _ => rfl⟩, fun _ => rfl,
      fun _ _ _ _ _ => rfl, fun _ _ _ _ => rfl, fun _ _ _ _ => rfl, fun _ _ _ => rfl⟩
  ⟨h, (C4_override_dispatch sampleEnv h sampleWorld (Override.event (EventFn.app 9))
    [HostCall.Init 64 0 512, HostCall.Event 7 ⟨0x100, []⟩, HostCall.Iterate 7,
      HostCall.Event 7 ⟨0x300, [1]⟩, HostCall.Quit 7 SDL_APP_FAILURE]).2.1,
    ((C4_override_dispatch sampleEnv h sampleWorld (Override.event (EventFn.app 9))
      [HostCall.Init 64 0 512, HostCall.Event 7 ⟨0x300, []⟩]).2.2.2.2.2.2.2.2.1
        9 rfl 7 ⟨0x100, []⟩).1,
    ((C4_override_dispatch sampleEnv h sampleWorld (Override.event (EventFn.app 9))
      [HostCall.Init 64 0 512, HostCall.Event 7 ⟨0x300, []⟩]).2.2.2.2.2.2.2.2.2.2.2.1
        rfl 7).1⟩

/-- C4 as stated fails: the application assigns its function at address 9 to the event
slot before Init; that function returns `SDL_APP_FAILURE` after the store
`g_sdl_app_event = nop_sdl_app_event;`.  The first Event call after Init runs
it (result `SDL_APP_FAILURE`), the second Event call with the same event runs
the default instead (result `SDL_APP_CONTINUE`, slot call through
`nop_sdl_app_event`). -/
theorem C4_override_dispatch_counterexample :
    (reassignEnv.app_event 9 7 ⟨0x300, []⟩ sampleWorld).1 = SDL_APP_FAILURE ∧
    (Postinclude.SDL_AppEvent reassignEnv 7 ⟨0x300, []⟩
        (Postinclude.hostRun reassignEnv [HostCall.Init 64 0 512]
          ⟨sampleWorld.assign (Override.event (EventFn.app 9)), []⟩)).1
      = SDL_APP_FAILURE ∧
    (Postinclude.SDL_AppEvent reassignEnv 7 ⟨0x300, []⟩
        (Postinclude.hostRun reassignEnv
          [HostCall.Init 64 0 512, HostCall.Event 7 ⟨0x300, []⟩]
          ⟨sampleWorld.assign (Override.event (EventFn.app 9)), []⟩)).1
      = SDL_APP_CONTINUE ∧
    (Postinclude.hostRun reassignEnv
        [HostCall.Init 64 0 512, HostCall.Event 7 ⟨0x300, []⟩, HostCall.Event 7 ⟨0x300, []⟩]
        ⟨sampleWorld.assign (Override.event (EventFn.app 9)), []⟩).trace.filter
          Action.isSlotCall
      = [Action.g_sdl_app_init InitFn.nop_sdl_app_init 64 0 512,
          Action.g_sdl_app_event (EventFn.app 9) 7 ⟨0x300, []⟩,
          Action.g_sdl_app_event EventFn.nop_sdl_app_event 7 ⟨0x300, []⟩] :=
  ⟨rfl, rfl, rfl, rfl⟩

/-- From the load-time slots, with nothing before the init slot assigning one, Init
returns `SDL_APP_CONTINUE`, adds the expected steps and ends in the state
`_vinit` returned, whose slots are still the defaults. -/
theorem Postinclude.SDL_AppInit_loadTime (env : Env) (h : env.BootKeepsSlots) (w : World)
    (a : Ptr) (c : Int) (v : Ptr) (tr : List Action) :
    (Postinclude.SDL_AppInit env a c v ⟨w.loadTime, tr⟩).1 = SDL_APP_CONTINUE ∧
    (Postinclude.SDL_AppInit env a c v ⟨w.loadTime, tr⟩).2.trace
      = tr ++ ([Action.store_g_main_argc c, Action.store_g_main_argv v]
          ++ (if env._VGCBOEHM then [Action.GC_set_pages_executable 0, Action.GC_INIT]
              else [])
          ++ [Action._vinit c v, Action.g_sdl_app_init InitFn.nop_sdl_app_init a c v]) ∧
    (Postinclude.SDL_AppInit env a c v ⟨w.loadTime, tr⟩).2.world.slots = w.loadTime.slots ∧
    (Postinclude.SDL_AppInit env a c v ⟨w.loadTime, tr⟩).2.world
      = env._vinit c v
          (if env._VGCBOEHM then
            env.GC_INIT (env.GC_set_pages_executable 0
              { w.loadTime with g_main_argc := c, g_main_argv := v })
          else { w.loadTime with g_main_argc := c, g_main_argv := v }) := by
  have hs := boot_slots env h c v w.loadTime
  have hi := hs
  simp only [World.slots, Prod.mk.injEq] at hi
  have hnop : w.loadTime.g_sdl_app_init = InitFn.nop_sdl_app_init := rfl
  obtain ⟨hr, hw, ht⟩ := Postinclude.SDL_AppInit_spelled env a c v ⟨w.loadTime, tr⟩
  rw [hi.1, hnop] at hr hw ht
  refine ⟨hr, ht, ?_, hw⟩
  rw [hw]
  exact hs

/-- C6: with every slot at its load-time value (the defaults): Event returns
`SDL_APP_SUCCESS` for an event of type `SDL_EVENT_QUIT` and `SDL_APP_CONTINUE`
for any other; Iterate returns `SDL_APP_CONTINUE`; `Quit(state, Success)` calls
the default quit slot and then `_vcleanup`, which runs on the unchanged state;
and, when nothing that runs in Init before the init slot is read (the collector
calls, `_vinit`) assigns a slot, Init returns `SDL_APP_CONTINUE` for every `argc`
and `argv`, and the scenario `Init(&state, 0, argv)`, `Event(state, quit)`,
`Quit(state, Success)` returns `SDL_APP_CONTINUE`, then `SDL_APP_SUCCESS`, and
its steps end with the default quit slot followed by `_vcleanup`. -/
theorem C6_load_time_defaults (env : Env) (w : World)
    (appstate_out appstate : Ptr) (argc : Int) (argv : Ptr) (event : SDL_Event)
    (payload : List Nat) (tr : List Action) :
    w.loadTime.slots
      = (InitFn.nop_sdl_app_init, QuitFn.nop_sdl_app_quit, EventFn.nop_sdl_app_event,
          IterateFn.nop_sdl_app_iterate) ∧
    (env.BootKeepsSlots →
      (Postinclude.SDL_AppInit env appstate_out argc argv ⟨w.loadTime, tr⟩).1
        = SDL_APP_CONTINUE) ∧
    (Postinclude.SDL_AppEvent env appstate event ⟨w.loadTime, tr⟩).1
      = (if event.type = env.SDL_EVENT_QUIT then SDL_APP_SUCCESS else SDL_APP_CONTINUE) ∧
    (Postinclude.SDL_AppIterate env appstate ⟨w.loadTime, tr⟩).1 = SDL_APP_CONTINUE ∧
    (Postinclude.SDL_AppQuit env appstate SDL_APP_SUCCESS ⟨w.loadTime, tr⟩).trace
      = tr ++ [Action.g_sdl_app_quit QuitFn.nop_sdl_app_quit appstate SDL_APP_SUCCESS,
          Action._vcleanup] ∧
    (Postinclude.SDL_AppQuit env appstate SDL_APP_SUCCESS ⟨w.loadTime, tr⟩).world
      = env._vcleanup w.loadTime ∧
    (env.BootKeepsSlots →
     let r1 := Postinclude.SDL_AppInit env appstate_out 0 argv ⟨w.loadTime, []⟩
     let r2 := Postinclude.SDL_AppEvent env appstate ⟨env.SDL_EVENT_QUIT, payload⟩ r1.2
     let q := Postinclude.SDL_AppQuit env appstate SDL_APP_SUCCESS r2.2
     r1.1 = SDL_APP_CONTINUE ∧ r2.1 = SDL_APP_SUCCESS ∧
     q.trace = [Action.store_g_main_argc 0, Action.store_g_main_argv argv]
        ++ (if env._VGCBOEHM then [Action.GC_set_pages_executable 0, Action.GC_INIT]
            else [])
        ++ [Action._vinit 0 argv,
            Action.g_sdl_app_init InitFn.nop_sdl_app_init appstate_out 0 argv,
            Action.g_sdl_app_event EventFn.nop_sdl_app_event appstate
              ⟨env.SDL_EVENT_QUIT, payload⟩,
            Action.g_sdl_app_quit QuitFn.nop_sdl_app_quit appstate SDL_APP_SUCCESS,
            Action._vcleanup] ∧
     q.world = env._vcleanup r1.2.world) := by
  refine ⟨rfl,
    fun h => (Postinclude.SDL_AppInit_loadTime env h w appstate_out argc argv tr).1,
    ?_, rfl, ?_, rfl, ?_⟩
  · show (nop_sdl_app_event env.SDL_EVENT_QUIT appstate event w.loadTime).1 = _
    unfold nop_sdl_app_event
    split <;> rfl
  · simp [Postinclude.SDL_AppQuit, State.exec, World.loadTime]
  · intro h r1 r2 q
    obtain ⟨h1, h2, h3, -⟩ :=
      Postinclude.SDL_AppInit_loadTime env h w appstate_out 0 argv []
    have hsl : r1.2.world.slots = w.loadTime.slots := h3
    simp only [World.slots, Prod.mk.injEq] at hsl
    obtain ⟨-, hq, he, -⟩ := hsl
    have he2 : r1.2.world.g_sdl_app_event = EventFn.nop_sdl_app_event := he
    have hq2 : r1.2.world.g_sdl_app_quit = QuitFn.nop_sdl_app_quit := hq
    have hr2w : r2.2.world = r1.2.world := by
      show (r1.2.world.g_sdl_app_event.run env appstate ⟨env.SDL_EVENT_QUIT, payload⟩
        r1.2.world).2 = r1.2.world
      rw [he2]
      show (nop_sdl_app_event env.SDL_EVENT_QUIT appstate ⟨env.SDL_EVENT_QUIT, payload⟩
        r1.2.world).2 = r1.2.world
      simp [nop_sdl_app_event]
    refine ⟨h1, ?_, ?_, ?_⟩
    · show (r1.2.world.g_sdl_app_event.run env appstate ⟨env.SDL_EVENT_QUIT, payload⟩
        r1.2.world).1 = SDL_APP_SUCCESS
      rw [he2]
      show (nop_sdl_app_event env.SDL_EVENT_QUIT appstate ⟨env.SDL_EVENT_QUIT, payload⟩
        r1.2.world).1 = SDL_APP_SUCCESS
      simp [nop_sdl_app_event]
    · show r2.2.trace ++ [Action.g_sdl_app_quit r2.2.world.g_sdl_app_quit appstate
        SDL_APP_SUCCESS] ++ [Action._vcleanup] = _
      rw [hr2w, hq2]
      show (r1.2.trace ++ [Action.g_sdl_app_event r1.2.world.g_sdl_app_event appstate
        ⟨env.SDL_EVENT_QUIT, payload⟩]) ++ _ ++ _ = _
      rw [he2, show r1.2.trace = _ from h2]
      simp
    · show env._vcleanup (r2.2.world.g_sdl_app_quit.run env appstate SDL_APP_SUCCESS
        r2.2.world) = _
      rw [hr2w, hq2]
      rfl

/-- C6, instantiated: in the sample environment nothing that runs before the init slot
assigns a slot; `Init(64, 0, 512)` returns `SDL_APP_CONTINUE`, Event returns
`SDL_APP_SUCCESS` for the quit event `0x100` and `SDL_APP_CONTINUE` for `0x300`. -/
theorem C6_load_time_defaults_witness :
    sampleEnv.BootKeepsSlots ∧
    (Postinclude.SDL_AppInit sampleEnv 64 0 512 ⟨sampleWorld.loadTime, []⟩).1
      = SDL_APP_CONTINUE ∧
    (Postinclude.SDL_AppEvent sampleEnv 7 ⟨0x100, []⟩ ⟨sampleWorld.loadTime, []⟩).1
      = SDL_APP_SUCCESS ∧
    (Postinclude.SDL_AppEvent sampleEnv 7 ⟨0x300, []⟩ ⟨sampleWorld.loadTime, []⟩).1
      = SDL_APP_CONTINUE :=
  have h : sampleEnv.BootKeepsSlots := ⟨fun _ _ => rfl, fun _ => rfl, fun _ _ _ => rfl⟩
  ⟨h, (C6_load_time_defaults sampleEnv sampleWorld 64 7 0 512 ⟨0x100, []⟩ [] []).2.1 h,
    (C6_load_time_defaults sampleEnv sampleWorld 64 7 0 512 ⟨0x100, []⟩ [] []).2.2.1,
    (C6_load_time_defaults sampleEnv sampleWorld 64 7 0 512 ⟨0x300, []⟩ [] []).2.2.1⟩

end VSdl
